import Mathlib

/-
Shallow embedding of the collect-evaluate-persist pipeline of the
system-health-monitor repository.

The embedded code lives in `src/agent`:
  * `config.py`         — `CSV_FIELDS`, `ALERT_THRESHOLDS`
  * `validation/thresholds.py` — `check_thresholds`
  * `io/csv_sink.py`    — `_write_csv_rows`, `_load_buffer`, `_persist_buffer`,
                          `save_csv`
  * `io/email_client.py` — `send_email`
  * `io/alert_logger.py` — `log_alerts`
  * `business/monitor_service.py` — `MonitorService.run_once`

Modelling conventions:
  * Python numbers are modelled exactly: `int` as `Int`, `float` as `Rat`
    (every float occurring in this program is a short decimal, which `Rat`
    represents exactly).
  * A snapshot dict is an association list from field name to value; `dict.get`
    is lookup on that list.
  * Files are modelled at line granularity.  The CSV file is
    `Option (List String)` (`none` = the file does not exist).  The buffer
    file is `Option (List BufLine)`, where a `BufLine` classifies one physical
    line of the file by its JSON parse outcome: a line that `json.loads`
    decodes to a snapshot, a whitespace-only line, or a non-blank line that is
    not valid JSON.  `json.dumps` of a snapshot is the `BufLine.record` line
    for that snapshot.
  * I/O failure of the CSV append is injected through an explicit oracle
    (`Option WriteFail`): `none` means the append succeeds, `some` describes
    where the `OSError` strikes.  Effects that the claims observe (SMTP
    session opened, alert log appended, report rendered) are returned
    explicitly as data.
-/

namespace SystemHealth

/-- A Python value stored in a snapshot dict (`SystemSnapshot` in
`agent/dto/metrics.py`): a string, an int, a float (exact rational), or the
`top_processes` list of `ProcessSnapshot` records. -/
inductive Value
  | str (s : String)
  | int (n : Int)
  | float (q : Rat)
  | procs (ps : List (Int × String × Rat × Rat))
deriving DecidableEq

/-- A snapshot dict: association list from field name to value. -/
abbrev Snap := List (String × Value)

/-- Python `dict.get(k)`: the value at the first matching key, if any. -/
def snapGet (s : Snap) (k : String) : Option Value :=
  (s.find? (fun p => p.1 == k)).map (fun p => p.2)

/-- Decimal digits of the fractional part of a non-negative rational,
most significant first, trailing zeros trimmed by stopping at zero
(fuel-bounded like the finite precision of a Python float repr). -/
def fracDigits : Nat → Rat → List Nat
  | 0, _ => []
  | fuel + 1, q =>
      if q = 0 then []
      else
        let q10 := q * 10
        let d := q10.floor.toNat
        d :: fracDigits fuel (q10 - (d : Rat))

/-- Python `str()` of a float value, for the exact decimal rationals this
program produces (sign, integer part, dot, fractional digits, at least one
fractional digit as in `str(95.0) = "95.0"`). -/
def floatRepr (q : Rat) : String :=
  let sign := if q < 0 then "-" else ""
  let a := |q|
  let ip := a.floor.toNat
  let ds := fracDigits 17 (a - (ip : Rat))
  sign ++ toString ip ++ "." ++
    (if ds.isEmpty then "0" else String.join (ds.map (fun d => toString d)))

/-- Python `str()` of one `ProcessSnapshot` dict (pid, name, cpu, mem). -/
def procRepr (p : Int × String × Rat × Rat) : String :=
  "\x7b\x27pid\x27: " ++ toString p.1 ++ ", \x27name\x27: \x27" ++ p.2.1 ++
    "\x27, \x27cpu_percent\x27: " ++ floatRepr p.2.2.1 ++
    ", \x27memory_percent\x27: " ++ floatRepr p.2.2.2 ++ "\x7d"

/-- Python `str()` of a snapshot value. -/
def pyStr : Value → String
  | .str s => s
  | .int n => toString n
  | .float q => floatRepr q
  | .procs ps => "[" ++ String.intercalate ", " (ps.map procRepr) ++ "]"

/-- Numeric value of a run of decimal digit characters. -/
def natValChars (cs : List Char) : Nat :=
  cs.foldl (fun a c => a * 10 + (c.toNat - 48)) 0

/-- Python `float(string)` on the unsigned decimal literals this program can
meet (`"95"`, `"95.5"`, `".5"`, `"5."`); exponent / inf / nan forms are
outside the modelled subset. `none` models a raised `ValueError`. -/
def parseUnsignedFloat (cs : List Char) : Option Rat :=
  let ip := cs.takeWhile Char.isDigit
  let rest := cs.dropWhile Char.isDigit
  match rest with
  | [] => if ip.isEmpty then none else some (natValChars ip : Rat)
  | '.' :: fp =>
      if fp.all Char.isDigit && !(ip.isEmpty && fp.isEmpty) then
        some ((natValChars ip : Rat) + (natValChars fp : Rat) / (10 : Rat) ^ fp.length)
      else none
  | _ => none

/-- Python `float(string)`: strip whitespace, optional sign, decimal literal. -/
def parsePyFloat (s : String) : Option Rat :=
  match s.trim.data with
  | '+' :: rest => parseUnsignedFloat rest
  | '-' :: rest => (parseUnsignedFloat rest).map Neg.neg
  | cs => parseUnsignedFloat cs

/-- Python `float(value)` applied to a snapshot value; `none` models the
exception raised on a non-numeric value (e.g. `TypeError` on a list). -/
def pyFloat : Value → Option Rat
  | .float q => some q
  | .int n => some (n : Rat)
  | .str s => parsePyFloat s
  | .procs _ => none

/-- Round to the nearest integer, ties to the even integer (the rounding of
Python `format(x, ".1f")` scaled by ten). -/
def rndHalfEven (x : Rat) : Int :=
  let f := ⌊x⌋
  let r := x - (f : Rat)
  if r < 1 / 2 then f
  else if 1 / 2 < r then f + 1
  else if f % 2 = 0 then f else f + 1

/-- Python `f"{q:.1f}"`: the value rendered with exactly one digit after the
decimal point. -/
def fmt1 (q : Rat) : String :=
  let n := rndHalfEven (10 * q)
  (if q < 0 then "-" else "") ++ toString (n.natAbs / 10) ++ "." ++ toString (n.natAbs % 10)

/-! ### `agent/config.py` -/

/-- `config.CSV_FIELDS` — the fixed, ordered CSV field list. -/
def CSV_FIELDS : List String :=
  ["timestamp", "cpu_percent", "memory_percent", "memory_used", "memory_total",
   "disk_percent", "disk_used", "disk_total", "net_bytes_sent", "net_bytes_recv",
   "uptime_seconds"]

/-- `config.ALERT_THRESHOLDS` — a Python dict, modelled with its insertion
order as an association list. -/
def ALERT_THRESHOLDS : List (String × Rat) :=
  [("cpu_percent", 90), ("memory_percent", 85), ("disk_percent", 90)]

/-! ### `agent/validation/thresholds.py` -/

/-- The value `float(stats.get(metric, 0.0))` read by `check_thresholds`. -/
def valueOf (stats : Snap) (metric : String) : Option Rat :=
  pyFloat ((snapGet stats metric).getD (Value.float 0))

/-- One alert message, `f"{metric} at {value:.1f}% exceeds {limit:.1f}%"`. -/
def alertMsg (metric : String) (value limit : Rat) : String :=
  metric ++ " at " ++ fmt1 value ++ "% exceeds " ++ fmt1 limit ++ "%"

/-- The `for metric, limit in ALERT_THRESHOLDS.items()` loop of
`check_thresholds`, with its `alerts` accumulator; `none` models the
exception `float()` would raise on a non-numeric field. -/
def checkLoop (stats : Snap) : List (String × Rat) → List String → Option (List String)
  | [], alerts => some alerts
  | (metric, limit) :: rest, alerts =>
      match valueOf stats metric with
      | none => none
      | some value =>
          checkLoop stats rest
            (if limit < value then alerts ++ [alertMsg metric value limit] else alerts)

/-- `check_thresholds` from `agent/validation/thresholds.py`. -/
def check_thresholds (stats : Snap) : Option (List String) :=
  checkLoop stats ALERT_THRESHOLDS []

/-! ### `agent/io/csv_sink.py` -/

/-- Minimal-quoting rule of `csv.writer`: quote a cell iff it contains a
delimiter, quote char, or line break, doubling embedded quotes. -/
def csvQuote (s : String) : String :=
  if s.data.any (fun c => c = ',' || c = '"' || c = '\n' || c = '\r') then
    "\"" ++ String.mk (s.data.flatMap (fun c => if c = '"' then ['"', '"'] else [c])) ++ "\""
  else s

/-- The rendering of one CSV cell of a data row:
`str(row.get(field, ""))` through the csv writer. -/
def cell (row : Snap) (field : String) : String :=
  match snapGet row field with
  | none => ""
  | some v => csvQuote (pyStr v)

/-- The header line written by `DictWriter.writeheader()`. -/
def headerLine : String :=
  String.intercalate "," (CSV_FIELDS.map csvQuote)

/-- The data line written for one snapshot by `writer.writerow`. -/
def rowLine (row : Snap) : String :=
  String.intercalate "," (CSV_FIELDS.map (cell row))

/-- One physical line of the buffer file, classified by its JSON parse
outcome: a line `json.loads` decodes to a snapshot (as written by
`json.dumps`), a whitespace-only line, or a non-blank line that is not
valid JSON. -/
inductive BufLine
  | record (s : Snap)
  | blank (ws : String)
  | garbage (raw : String)
deriving DecidableEq

/-- Where the injected `OSError` strikes inside `_write_csv_rows`:
`noFile` fails in `mkdir`/`open` before the file is touched; `afterRows k`
fails after the header (when one is due) and `k` data rows have been
appended (failure inside a line is modelled at line granularity). -/
inductive WriteFail
  | noFile
  | afterRows (k : Nat)
deriving DecidableEq

/-- `_write_csv_rows`: append `rows` to the CSV, writing the header first
when the file does not yet exist.  Returns the resulting file content and
whether the call completed without raising `OSError`. -/
def _write_csv_rows (csv : Option (List String)) (rows : List Snap) :
    Option WriteFail → Option (List String) × Bool
  | none =>
      (some (csv.getD [] ++ (if csv.isNone then [headerLine] else []) ++ rows.map rowLine),
       true)
  | some .noFile => (csv, false)
  | some (.afterRows k) =>
      (some (csv.getD [] ++ (if csv.isNone then [headerLine] else []) ++
         (rows.take k).map rowLine),
       false)

/-- The list comprehension of `_load_buffer`:
`[json.loads(line) for line in buffer_file if line.strip()]`.  Blank lines
are skipped; the first non-JSON line raises, modelled as `Except.error`. -/
def loadLines : List BufLine → Except String (List Snap)
  | [] => .ok []
  | .blank _ :: rest => loadLines rest
  | .garbage raw :: _ => .error ("JSONDecodeError: " ++ raw)
  | .record s :: rest => (loadLines rest).map (fun l => s :: l)

/-- `_load_buffer`: an absent buffer file is an empty backlog. -/
def _load_buffer (buffer : Option (List BufLine)) : Except String (List Snap) :=
  match buffer with
  | none => .ok []
  | some lines => loadLines lines

/-- `_persist_buffer`: truncate and rewrite the buffer file with one
`json.dumps` record per line. -/
def _persist_buffer (rows : List Snap) : List BufLine :=
  rows.map BufLine.record

/-- The two files owned by the CSV sink: the CSV at `csv_path` and the
buffer at `buffer_path` (`none` = the file does not exist). -/
structure FS where
  csv : Option (List String)
  buf : Option (List BufLine)
deriving DecidableEq

/-- The result of `save_csv`: `delivered` is the `return True` path,
`buffered` the `return False` path, `fatal` an uncaught exception
propagating to the caller. -/
inductive SaveOutcome
  | delivered
  | buffered
  | fatal (err : String)
deriving DecidableEq

/-- `save_csv` from `agent/io/csv_sink.py`: load the backlog, append
backlog + current snapshot to the CSV; on success delete the buffer file
and return `True`, on `OSError` rewrite the buffer file with the whole
write-set and return `False`.  A parse failure while loading the buffer is
not caught and propagates. -/
def save_csv (stats : Snap) (fs : FS) (wf : Option WriteFail) : FS × SaveOutcome :=
  match _load_buffer fs.buf with
  | .error e => (fs, .fatal e)
  | .ok buffered_rows =>
      let rows_to_write := buffered_rows ++ [stats]
      let res := _write_csv_rows fs.csv rows_to_write wf
      if res.2 then ({ csv := res.1, buf := none }, .delivered)
      else ({ csv := res.1, buf := some (_persist_buffer rows_to_write) }, .buffered)

/-- A sequence of consecutive `save_csv` calls on the same paths, each step
carrying the snapshot to save and the failure oracle of its CSV append. -/
def runSaves (fs : FS) : List (Snap × Option WriteFail) → FS × List SaveOutcome
  | [] => (fs, [])
  | (s, wf) :: rest =>
      let step := save_csv s fs wf
      let tail := runSaves step.1 rest
      (tail.1, step.2 :: tail.2)

/-- The snapshots held by a buffer file (the decode of its record lines). -/
def recOf : BufLine → Option Snap
  | .record s => some s
  | _ => none

/-- Decoded contents of the buffer file, oldest first. -/
def bufSnaps (buffer : Option (List BufLine)) : List Snap :=
  (buffer.getD []).filterMap recOf

/-- Whether a buffer line is non-blank, non-JSON content. -/
def isGarbage : BufLine → Bool
  | .garbage _ => true
  | _ => false

/-- A well-formed buffer file: absent, or consisting purely of record lines
(every buffer file ever written by `_persist_buffer` has this shape). -/
def BufWF (buffer : Option (List BufLine)) : Prop :=
  buffer = none ∨ ∃ P : List Snap, buffer = some (P.map BufLine.record)

/-- The snapshots of the maximal all-failed suffix of a run: a delivered
step empties the pending backlog, a failed step appends its snapshot. -/
def pendingOf (init : List Snap) (steps : List (Snap × Option WriteFail)) : List Snap :=
  steps.foldl
    (fun acc p => match p.2 with | none => [] | some _ => acc ++ [p.1]) init

/-! ### `agent/io/email_client.py` -/

/-- The three environment variables `send_email` reads with `os.getenv`
(`none` = the variable is unset). -/
structure Env where
  SENDER_EMAIL : Option String
  APP_PASSWORD : Option String
  RECIPIENT_EMAIL : Option String
deriving DecidableEq

/-- Python `a or b` on an optional argument against an `os.getenv` result:
a `None` or empty argument falls through to the environment value. -/
def pyOrStr (a b : Option String) : Option String :=
  match a with
  | some s => if s = "" then b else some s
  | none => b

/-- Python truth test `not x` on an optional string: `None` and `""` are
falsy. -/
def strFalsy : Option String → Bool
  | none => true
  | some s => s = ""

/-- Outcome of the SMTP session (`smtplib.SMTP` connect, `starttls`,
`login`, `send_message`): it completes; it raises `smtplib.SMTPException`
(protocol-level failures from `login`/`send_message`); or it raises a
connection-level error that is not an `SMTPException` — `OSError` from the
`smtplib.SMTP(...)` connect (DNS failure, connection refused, timeout) or
`ssl.SSLError` from `starttls`. -/
inductive TransportOutcome
  | success
  | smtpError (msg : String)
  | osError (msg : String)
deriving DecidableEq

/-- Observable result of `send_email`: the returned bool, whether an SMTP
session was opened at all, and the message body handed to the transport
when the send completed. -/
structure SendResult where
  result : Bool
  contacted : Bool
  delivered_message : Option String
deriving DecidableEq

/-- The alert email body built by `send_email`. -/
def emailBody (alerts : List String) (stats : Snap) : String :=
  let lines :=
    ["The following thresholds were exceeded:"] ++ alerts.map (fun a => " - " ++ a) ++
      ["\nKey metrics snapshot:"] ++
      (["cpu_percent", "memory_percent", "disk_percent", "uptime_seconds"].map
        (fun key =>
          " * " ++ key ++ ": " ++
            (match snapGet stats key with
             | none => "None"
             | some v => pyStr v)))
  String.intercalate "\n" lines

/-- `send_email` from `agent/io/email_client.py`: resolve the sender and
recipient from the arguments with the environment as fallback and the
password from `APP_PASSWORD` only; skip (returning `False`) when any of
the three is missing or empty; otherwise run the SMTP session, returning
`True` on success.  The `except` clause catches only
`smtplib.SMTPException` (returning `False`); a connection-level
`OSError`/`ssl.SSLError` is not caught and propagates to the caller,
modelled as `Except.error`. -/
def send_email (alerts : List String) (stats : Snap)
    (sender recipient : Option String) (env : Env) (transport : TransportOutcome) :
    Except String SendResult :=
  let sender_email := pyOrStr sender env.SENDER_EMAIL
  let password := env.APP_PASSWORD
  let recipient_email := pyOrStr recipient env.RECIPIENT_EMAIL
  if strFalsy sender_email || strFalsy password || strFalsy recipient_email then
    .ok { result := false, contacted := false, delivered_message := none }
  else
    match transport with
    | .success =>
        .ok { result := true, contacted := true,
              delivered_message := some (emailBody alerts stats) }
    | .smtpError _ =>
        .ok { result := false, contacted := true, delivered_message := none }
    | .osError msg => .error msg

/-! ### `agent/io/alert_logger.py` -/

/-- `log_alerts`: append one `f"{timestamp} - {alert}"` line per alert
(`now` is the `datetime.now(timezone.utc).isoformat()` string). -/
def log_alerts (alerts : List String) (now : String) (log : List String) : List String :=
  log ++ alerts.map (fun a => now ++ " - " ++ a)

/-! ### `agent/business/monitor_service.py` -/

/-- The on-disk artifacts a `MonitorService` run touches: the CSV sink
files, the alert log (as appended lines), and the HTML report (abstracted
to the snapshot and alerts it was rendered from). -/
structure World where
  fs : FS
  alertLog : List String
  report : Option (Snap × List String)
deriving DecidableEq

/-- Observable side effects of one `run_once`, in the order they happen. -/
inductive Event
  | savedCsv (delivered : Bool)
  | loggedAlerts (alerts : List String)
  | emailAttempted (sent : Bool)
  | renderedReport
deriving DecidableEq

/-- `MonitorService.run_once` after the snapshot is collected: save to the
CSV sink (an uncaught exception there aborts), evaluate thresholds, handle
alerts (append to the alert log — an `OSError` there, injected through
`logOk`, is uncaught and fatal — then attempt the email, whose uncaught
connection-level errors also abort, after the log append), render the HTML
report, and return the snapshot.  The returned trace lists the observable
effects in order; `Except.error` models the run aborting on an uncaught
exception. -/
def run_once (stats : Snap) (w : World) (wf : Option WriteFail) (logOk : Bool)
    (now : String) (env : Env) (transport : TransportOutcome) :
    World × List Event × Except String Snap :=
  match save_csv stats w.fs wf with
  | (fs1, .fatal e) => ({ w with fs := fs1 }, [], .error e)
  | (fs1, outcome) =>
      let ev0 := [Event.savedCsv (decide (outcome = SaveOutcome.delivered))]
      match check_thresholds stats with
      | none => ({ w with fs := fs1 }, ev0, .error "TypeError: check_thresholds")
      | some alerts =>
          if alerts.isEmpty then
            ({ fs := fs1, alertLog := w.alertLog, report := some (stats, alerts) },
             ev0 ++ [Event.renderedReport], .ok stats)
          else if logOk then
            match send_email alerts stats none none env transport with
            | .error m =>
                ({ fs := fs1, alertLog := log_alerts alerts now w.alertLog,
                   report := w.report },
                 ev0 ++ [Event.loggedAlerts alerts], .error m)
            | .ok sr =>
                ({ fs := fs1, alertLog := log_alerts alerts now w.alertLog,
                   report := some (stats, alerts) },
                 ev0 ++ [Event.loggedAlerts alerts, Event.emailAttempted sr.result,
                   Event.renderedReport],
                 .ok stats)
          else
            ({ w with fs := fs1 }, ev0, .error "OSError: log_alerts")

/-! ### Concrete sample data (used by the witnesses) -/

/-- A sample snapshot breaching the cpu and disk thresholds (the spec's own
example: `cpu_percent=95.0, memory_percent=50.0, disk_percent=91.0`). -/
def demoSnapA : Snap :=
  [("timestamp", Value.str "2026-01-01T00:00:00+00:00"),
   ("cpu_percent", Value.float 95), ("memory_percent", Value.float 50),
   ("disk_percent", Value.float 91)]

/-- A sample snapshot breaching no threshold. -/
def demoSnapB : Snap :=
  [("cpu_percent", Value.float 10), ("memory_percent", Value.float 10),
   ("disk_percent", Value.float 10)]

/-- An empty filesystem: neither the CSV file nor the buffer file exists. -/
def fs0 : FS := { csv := none, buf := none }

/-- A sample snapshot with scalar-rendered fields only. -/
def demoSnapC : Snap :=
  [("timestamp", Value.str "t1"), ("memory_used", Value.int 1024)]

/-- A second sample snapshot with scalar-rendered fields only. -/
def demoSnapD : Snap :=
  [("timestamp", Value.str "t2"), ("memory_used", Value.int 2048)]

/-- A sample run: one save failing before the file is touched, one failing
after one row, one succeeding. -/
def demoSteps : List (Snap × Option WriteFail) :=
  [(demoSnapC, some WriteFail.noFile), (demoSnapD, some (WriteFail.afterRows 1)),
   (demoSnapC, none)]

/-! ### Basic lemmas about the buffer codec -/

lemma loadLines_map_record (P : List Snap) :
    loadLines (P.map BufLine.record) = Except.ok P := by
  induction P with
  | nil => rfl
  | cons s rest ih => simp [loadLines, ih, Except.map]

lemma bufSnaps_map_record (P : List Snap) :
    bufSnaps (some (P.map BufLine.record)) = P := by
  induction P with
  | nil => rfl
  | cons s rest ih =>
      simp only [bufSnaps, Option.getD] at ih ⊢
      simp [List.filterMap_cons, recOf, ih]

lemma load_buffer_wf {b : Option (List BufLine)} (h : BufWF b) :
    _load_buffer b = Except.ok (bufSnaps b) := by
  rcases h with h | ⟨P, h⟩
  · subst h; rfl
  · subst h
    simp [_load_buffer, loadLines_map_record, bufSnaps_map_record]

lemma save_csv_success (s : Snap) (fs : FS) (h : BufWF fs.buf) :
    save_csv s fs none =
      ({ csv := some (fs.csv.getD [] ++ (if fs.csv.isNone then [headerLine] else []) ++
           (bufSnaps fs.buf ++ [s]).map rowLine),
         buf := none }, SaveOutcome.delivered) := by
  simp [save_csv, load_buffer_wf h, _write_csv_rows]

lemma save_csv_failure (s : Snap) (fs : FS) (f : WriteFail) (h : BufWF fs.buf) :
    save_csv s fs (some f) =
      ({ csv := (_write_csv_rows fs.csv (bufSnaps fs.buf ++ [s]) (some f)).1,
         buf := some ((bufSnaps fs.buf ++ [s]).map BufLine.record) }, SaveOutcome.buffered) := by
  cases f <;> simp [save_csv, load_buffer_wf h, _write_csv_rows, _persist_buffer]

lemma write_rows_failure_snd (csv : Option (List String)) (rows : List Snap) (f : WriteFail) :
    (_write_csv_rows csv rows (some f)).2 = false := by
  cases f <;> rfl

lemma csv_mem_write_rows (csv : Option (List String)) (rows : List Snap)
    (wf : Option WriteFail) {l : String} (hl : l ∈ csv.getD []) :
    l ∈ ((_write_csv_rows csv rows wf).1).getD [] := by
  rcases wf with _ | f
  · simp [_write_csv_rows, hl]
  · cases f with
    | noFile => simpa [_write_csv_rows] using hl
    | afterRows k => simp [_write_csv_rows, hl]

lemma pendingOf_cons (init : List Snap) (s : Snap) (wf : Option WriteFail)
    (rest : List (Snap × Option WriteFail)) :
    pendingOf init ((s, wf) :: rest) =
      pendingOf (match wf with | none => [] | some _ => init ++ [s]) rest := by
  cases wf <;> rfl

/-- Full invariant of a run of consecutive `save_csv` calls from a
well-formed buffer: result list shape, well-formedness and exact contents
of the final buffer, the emptiness criterion, CSV append-onlyness, and
per-snapshot no-loss. -/
lemma runSaves_inv (steps : List (Snap × Option WriteFail)) :
    ∀ fs : FS, BufWF fs.buf →
      ((runSaves fs steps).2.length = steps.length)
      ∧ BufWF (runSaves fs steps).1.buf
      ∧ ((runSaves fs steps).2 =
          steps.map (fun p => if p.2.isNone then SaveOutcome.delivered else SaveOutcome.buffered))
      ∧ bufSnaps (runSaves fs steps).1.buf = pendingOf (bufSnaps fs.buf) steps
      ∧ (∀ p, steps.getLast? = some p →
          ((runSaves fs steps).1.buf = none ↔ p.2 = none))
      ∧ (steps = [] → (runSaves fs steps).1 = fs)
      ∧ (∀ l ∈ fs.csv.getD [], l ∈ (runSaves fs steps).1.csv.getD [])
      ∧ (∀ t ∈ bufSnaps fs.buf,
          t ∈ bufSnaps (runSaves fs steps).1.buf ∨
            rowLine t ∈ (runSaves fs steps).1.csv.getD [])
      ∧ (∀ p ∈ steps,
          p.1 ∈ bufSnaps (runSaves fs steps).1.buf ∨
            rowLine p.1 ∈ (runSaves fs steps).1.csv.getD []) := by
  induction steps with
  | nil =>
      intro fs h
      refine ⟨rfl, h, rfl, rfl, ?_, fun _ => rfl, ?_, ?_, ?_⟩
      · intro p hp; simp at hp
      · intro l hl; exact hl
      · intro t ht; exact Or.inl ht
      · intro p hp; simp at hp
  | cons p rest ih =>
      rcases p with ⟨s, wf⟩
      intro fs h
      cases wf with
      | none =>
          have hstep := save_csv_success s fs h
          have hwf1 : BufWF (none : Option (List BufLine)) := Or.inl rfl
          obtain ⟨h1, h2, h3, h4, h5, h6, h7, h8, h9⟩ :=
            ih { csv := some (fs.csv.getD [] ++ (if fs.csv.isNone then [headerLine] else []) ++
                   (bufSnaps fs.buf ++ [s]).map rowLine),
                 buf := none } hwf1
          simp only [runSaves, hstep]
          refine ⟨by simpa using h1, h2, by simpa using h3, ?_, ?_, ?_, ?_, ?_, ?_⟩
          · rw [pendingOf_cons]
            simpa [bufSnaps] using h4
          · intro q hq
            rcases rest with _ | ⟨r, rest2⟩
            · simp at hq
              subst hq
              simp [runSaves]
            · rw [List.getLast?_cons_cons] at hq
              exact h5 q hq
          · intro habs; simp at habs
          · intro l hl
            apply h7
            simp [hl]
          · intro t ht
            right
            apply h7
            have hmem : rowLine t ∈ (bufSnaps fs.buf ++ [s]).map rowLine :=
              List.mem_map_of_mem _ (by simp [ht])
            simp only [Option.getD_some, List.mem_append]
            exact Or.inr hmem
          · intro q hq
            rcases List.mem_cons.mp hq with hq | hq
            · subst hq
              right
              apply h7
              have hmem : rowLine s ∈ (bufSnaps fs.buf ++ [s]).map rowLine :=
                List.mem_map_of_mem _ (by simp)
              simp only [Option.getD_some, List.mem_append]
              exact Or.inr hmem
            · exact h9 q hq
      | some f =>
          have hstep := save_csv_failure s fs f h
          have hwf1 : BufWF (some ((bufSnaps fs.buf ++ [s]).map BufLine.record)) :=
            Or.inr ⟨bufSnaps fs.buf ++ [s], rfl⟩
          obtain ⟨h1, h2, h3, h4, h5, h6, h7, h8, h9⟩ :=
            ih { csv := (_write_csv_rows fs.csv (bufSnaps fs.buf ++ [s]) (some f)).1,
                 buf := some ((bufSnaps fs.buf ++ [s]).map BufLine.record) } hwf1
          simp only [runSaves, hstep]
          refine ⟨by simpa using h1, h2, by simpa using h3, ?_, ?_, ?_, ?_, ?_, ?_⟩
          · rw [pendingOf_cons]
            rw [bufSnaps_map_record] at h4
            simpa using h4
          · intro q hq
            rcases rest with _ | ⟨r, rest2⟩
            · simp at hq
              subst hq
              simp [runSaves]
            · rw [List.getLast?_cons_cons] at hq
              exact h5 q hq
          · intro habs; simp at habs
          · intro l hl
            exact h7 l (csv_mem_write_rows fs.csv _ (some f) hl)
          · intro t ht
            apply h8
            rw [bufSnaps_map_record]
            simp [ht]
          · intro q hq
            rcases List.mem_cons.mp hq with hq | hq
            · subst hq
              apply h8
              rw [bufSnaps_map_record]
              simp
            · exact h9 q hq

/-! ### Lemmas about the threshold evaluator -/

lemma repr_digit (m : Nat) (h : m < 10) :
    (toString m).length = 1 ∧ (toString m).data.all Char.isDigit = true := by
  interval_cases m <;> exact ⟨by decide, by decide⟩

lemma fmt1_one_decimal (q : Rat) :
    ∃ pre d : String, fmt1 q = pre ++ "." ++ d ∧ d.length = 1 ∧ d.data.all Char.isDigit = true := by
  refine ⟨(if q < 0 then "-" else "") ++ toString ((rndHalfEven (10 * q)).natAbs / 10),
    toString ((rndHalfEven (10 * q)).natAbs % 10), rfl, ?_, ?_⟩
  · exact (repr_digit _ (Nat.mod_lt _ (by norm_num))).1
  · exact (repr_digit _ (Nat.mod_lt _ (by norm_num))).2

lemma rndHalfEven_int (n : Int) : rndHalfEven ((n : Rat)) = n := by
  simp [rndHalfEven, Int.floor_intCast]

lemma fmt1_nat (n : Nat) : fmt1 ((n : Rat)) = toString n ++ "." ++ "0" := by
  have hmul : (10 : Rat) * (n : Rat) = (((10 * n : Nat) : Int) : Rat) := by push_cast; ring
  have hneg : ¬((n : Rat) < 0) := not_lt.mpr (by positivity)
  simp only [fmt1, hmul, rndHalfEven_int, if_neg hneg, Int.natAbs_ofNat,
    Nat.mul_div_cancel_left n (by norm_num : 0 < 10), Nat.mul_mod_right]
  rfl

lemma fmt1_95 : fmt1 (95 : Rat) = "95.0" := by
  rw [show (95 : Rat) = ((95 : Nat) : Rat) by norm_num, fmt1_nat]; decide

lemma fmt1_91 : fmt1 (91 : Rat) = "91.0" := by
  rw [show (91 : Rat) = ((91 : Nat) : Rat) by norm_num, fmt1_nat]; decide

lemma fmt1_90 : fmt1 (90 : Rat) = "90.0" := by
  rw [show (90 : Rat) = ((90 : Nat) : Rat) by norm_num, fmt1_nat]; decide

/-- Evaluation of the threshold check on the sample breaching snapshot. -/
lemma check_demoA :
    check_thresholds demoSnapA =
      some ["cpu_percent at 95.0% exceeds 90.0%", "disk_percent at 91.0% exceeds 90.0%"] := by
  have hc : valueOf demoSnapA "cpu_percent" = some 95 := by decide
  have hm : valueOf demoSnapA "memory_percent" = some 50 := by decide
  have hd : valueOf demoSnapA "disk_percent" = some 91 := by decide
  simp only [check_thresholds, ALERT_THRESHOLDS, checkLoop, hc, hm, hd]
  rw [if_pos (by decide : (90 : Rat) < 95), if_neg (by decide : ¬((85 : Rat) < 50)),
    if_pos (by decide : (90 : Rat) < 91)]
  simp only [alertMsg, fmt1_95, fmt1_91, fmt1_90]
  decide

/-! ### Claim theorems -/

/-- C2: Threshold evaluation correctness: `check_thresholds` emits, per
`(metric, limit)` entry of the threshold table in the table's insertion
order (`cpu_percent`, `memory_percent`, `disk_percent`), exactly one
message iff the snapshot's value for that metric exceeds the limit
strictly, with a missing field read as `0.0`; each message is
`"<metric> at <value>% exceeds <limit>%"` with both numbers rendered to
exactly one decimal place; the function is pure and returns a (possibly
empty) list. -/
theorem check_thresholds_correct (stats : Snap) (vc vm vd : Rat)
    (hc : valueOf stats "cpu_percent" = some vc)
    (hm : valueOf stats "memory_percent" = some vm)
    (hd : valueOf stats "disk_percent" = some vd) :
    (check_thresholds stats =
      some ((if (90 : Rat) < vc then [alertMsg "cpu_percent" vc 90] else []) ++
            (if (85 : Rat) < vm then [alertMsg "memory_percent" vm 85] else []) ++
            (if (90 : Rat) < vd then [alertMsg "disk_percent" vd 90] else [])))
    ∧ ALERT_THRESHOLDS = [("cpu_percent", 90), ("memory_percent", 85), ("disk_percent", 90)]
    ∧ (∀ metric, snapGet stats metric = none → valueOf stats metric = some 0)
    ∧ (∀ metric (value limit : Rat),
        alertMsg metric value limit =
          metric ++ " at " ++ fmt1 value ++ "% exceeds " ++ fmt1 limit ++ "%")
    ∧ (∀ q : Rat, ∃ pre d : String,
        fmt1 q = pre ++ "." ++ d ∧ d.length = 1 ∧ d.data.all Char.isDigit = true) := by
  refine ⟨?_, rfl, ?_, fun _ _ _ => rfl, fmt1_one_decimal⟩
  · simp only [check_thresholds, ALERT_THRESHOLDS, checkLoop, hc, hm, hd]
    split_ifs <;> simp
  · intro metric hmiss
    simp [valueOf, hmiss, pyFloat]

/-- C2 witness: the spec's worked example
(`cpu=95.0, mem=50.0, disk=91.0` against limits `{90, 85, 90}`). -/
theorem check_thresholds_correct_witness :
    check_thresholds demoSnapA =
      some ["cpu_percent at 95.0% exceeds 90.0%", "disk_percent at 91.0% exceeds 90.0%"] := by
  have h := (check_thresholds_correct demoSnapA 95 50 91 (by decide) (by decide) (by decide)).1
  rw [h, if_pos (by decide : (90 : Rat) < 95), if_neg (by decide : ¬((85 : Rat) < 50)),
    if_pos (by decide : (90 : Rat) < 91)]
  simp only [alertMsg, fmt1_95, fmt1_91, fmt1_90]
  decide

/-- C6 counterexample: the claim "if the transport fails during sending,
`send_email` also returns Skipped (false) — the failure is never raised to
the orchestrator" is false on the code: with all three credentials present
and the transport failing with a connection-level `OSError` (raised by the
`smtplib.SMTP(...)` connect, which `except smtplib.SMTPException` does not
catch), `send_email` does not return `False` — the exception propagates. -/
theorem send_email_transport_error_counterexample :
    send_email ["cpu_percent at 95.0% exceeds 90.0%"] demoSnapA
        (some "sender@example.com") (some "rcpt@example.com")
        { SENDER_EMAIL := none, APP_PASSWORD := some "app-password",
          RECIPIENT_EMAIL := none }
        (TransportOutcome.osError "[Errno 111] Connection refused") =
      Except.error "[Errno 111] Connection refused" := rfl

/-- C6 (amended): Email is best-effort for missing credentials and SMTP
protocol failures only: with any of the three resolved credentials absent
or empty, `send_email` returns `False` without opening an SMTP session for
every transport; when the session raises `smtplib.SMTPException` the
exception is caught and `send_email` returns `False`; but a
connection-level `OSError`/`ssl.SSLError` is not caught — with credentials
present it propagates to the caller and aborts the run. -/
theorem send_email_best_effort (alerts : List String) (stats : Snap)
    (sender recipient : Option String) (env : Env) :
    (∀ transport,
      (strFalsy (pyOrStr sender env.SENDER_EMAIL) = true ∨
       strFalsy env.APP_PASSWORD = true ∨
       strFalsy (pyOrStr recipient env.RECIPIENT_EMAIL) = true) →
      send_email alerts stats sender recipient env transport =
        Except.ok { result := false, contacted := false, delivered_message := none })
    ∧ (∀ msg, ∃ sr : SendResult,
        send_email alerts stats sender recipient env (TransportOutcome.smtpError msg) =
          Except.ok sr ∧ sr.result = false)
    ∧ (∀ msg,
        (strFalsy (pyOrStr sender env.SENDER_EMAIL) = false ∧
         strFalsy env.APP_PASSWORD = false ∧
         strFalsy (pyOrStr recipient env.RECIPIENT_EMAIL) = false) →
        send_email alerts stats sender recipient env (TransportOutcome.osError msg) =
          Except.error msg) := by
  refine ⟨?_, ?_, ?_⟩
  · intro transport hcred
    rcases hcred with h | h | h <;> simp [send_email, h]
  · intro msg
    by_cases hc : (strFalsy (pyOrStr sender env.SENDER_EMAIL) ||
        strFalsy env.APP_PASSWORD || strFalsy (pyOrStr recipient env.RECIPIENT_EMAIL)) = true
    · exact ⟨{ result := false, contacted := false, delivered_message := none },
        by simp [send_email, hc], rfl⟩
    · exact ⟨{ result := false, contacted := true, delivered_message := none },
        by simp [send_email, hc], rfl⟩
  · rintro msg ⟨h1, h2, h3⟩
    simp [send_email, h1, h2, h3]

/-- C6 witness: sender and recipient set but `APP_PASSWORD` unset — the
email is skipped with no transport contact. -/
theorem send_email_best_effort_witness :
    send_email ["cpu_percent at 95.0% exceeds 90.0%"] demoSnapA none none
        { SENDER_EMAIL := some "sender@example.com", APP_PASSWORD := none,
          RECIPIENT_EMAIL := some "rcpt@example.com" } TransportOutcome.success =
      Except.ok { result := false, contacted := false, delivered_message := none } :=
  (send_email_best_effort _ _ _ _ _).1 _ (Or.inr (Or.inl rfl))

/-- C10: The secret credential is read only from the environment: even with
non-empty explicit sender and recipient arguments (which do resolve to
those arguments), an unset or empty `APP_PASSWORD` makes `send_email`
return `False` with no transport contact. -/
theorem send_email_password_from_env_only (alerts : List String) (stats : Snap)
    (s r : String) (env : Env) (hs : s ≠ "") (hr : r ≠ "")
    (hp : env.APP_PASSWORD = none ∨ env.APP_PASSWORD = some "") :
    (pyOrStr (some s) env.SENDER_EMAIL = some s)
    ∧ (pyOrStr (some r) env.RECIPIENT_EMAIL = some r)
    ∧ (∀ transport, send_email alerts stats (some s) (some r) env transport =
        Except.ok { result := false, contacted := false, delivered_message := none }) := by
  refine ⟨by simp [pyOrStr, hs], by simp [pyOrStr, hr], ?_⟩
  intro transport
  rcases hp with hp | hp <;> simp [send_email, strFalsy, hp]

/-- C10 witness: explicit non-empty sender and recipient, empty password. -/
theorem send_email_password_from_env_only_witness :
    send_email [] demoSnapB (some "sender@example.com") (some "rcpt@example.com")
        { SENDER_EMAIL := none, APP_PASSWORD := some "", RECIPIENT_EMAIL := none }
        (TransportOutcome.osError "[Errno 111] Connection refused") =
      Except.ok { result := false, contacted := false, delivered_message := none } :=
  (send_email_password_from_env_only [] demoSnapB "sender@example.com" "rcpt@example.com"
      _ (by decide) (by decide) (Or.inr rfl)).2.2
    (TransportOutcome.osError "[Errno 111] Connection refused")

/-- C8: CSV frame property: a `save_csv` call never modifies, deletes or
reorders content already in the CSV file — the prior content is a prefix
of the resulting content in every outcome (success, I/O failure anywhere,
or fatal buffer-parse error). -/
theorem csv_append_only_frame (stats : Snap) (fs : FS) (wf : Option WriteFail) :
    fs.csv.getD [] <+: (save_csv stats fs wf).1.csv.getD [] := by
  rcases hload : _load_buffer fs.buf with e | P
  · simp [save_csv, hload]
  · rcases wf with _ | f
    · simp only [save_csv, hload, _write_csv_rows]
      rw [List.append_assoc]
      exact List.prefix_append _ _
    · cases f with
      | noFile => simp [save_csv, hload, _write_csv_rows]
      | afterRows k =>
          simp only [save_csv, hload, _write_csv_rows]
          rw [List.append_assoc]
          exact List.prefix_append _ _

/-- C1: Durable-buffering no-loss guarantee: over any sequence of
consecutive `save_csv` calls starting with no buffer file, no call is
fatal; the buffer file holds exactly the snapshots of the maximal suffix
of failed saves, oldest first (so it accumulates monotonically across
consecutive failures and every snapshot of a save that returned `Buffered`
is retained); the buffer file is absent iff the last save succeeded (or no
save happened); every snapshot ends up in the buffer or as a row of the
CSV; and a save that returns `Delivered` appends exactly the buffered
snapshots followed by the current one, in arrival order, to the CSV and
leaves the buffer file absent. -/
theorem save_csv_durable_no_loss (steps : List (Snap × Option WriteFail)) (start : FS)
    (h0 : start.buf = none) :
    ((runSaves start steps).2.length = steps.length)
    ∧ (∀ r ∈ (runSaves start steps).2,
        r = SaveOutcome.delivered ∨ r = SaveOutcome.buffered)
    ∧ bufSnaps (runSaves start steps).1.buf = pendingOf [] steps
    ∧ (steps = [] → (runSaves start steps).1.buf = none)
    ∧ (∀ p, steps.getLast? = some p →
        ((runSaves start steps).1.buf = none ↔ p.2 = none))
    ∧ (∀ p ∈ steps,
        p.1 ∈ bufSnaps (runSaves start steps).1.buf ∨
          rowLine p.1 ∈ (runSaves start steps).1.csv.getD [])
    ∧ (∀ (s : Snap) (fs : FS), BufWF fs.buf →
        save_csv s fs none =
          ({ csv := some (fs.csv.getD [] ++ (if fs.csv.isNone then [headerLine] else []) ++
               (bufSnaps fs.buf ++ [s]).map rowLine),
             buf := none }, SaveOutcome.delivered))
    ∧ (∀ (s : Snap) (fs : FS) (f : WriteFail), BufWF fs.buf →
        (save_csv s fs (some f)).2 = SaveOutcome.buffered
        ∧ bufSnaps (save_csv s fs (some f)).1.buf = bufSnaps fs.buf ++ [s]) := by
  obtain ⟨h1, h2, h3, h4, h5, h6, h7, h8, h9⟩ := runSaves_inv steps start (Or.inl h0)
  refine ⟨h1, ?_, ?_, ?_, h5, h9, save_csv_success, ?_⟩
  · intro r hr
    rw [h3] at hr
    rcases List.mem_map.mp hr with ⟨p, _, rfl⟩
    by_cases hp : p.2.isNone <;> simp [hp]
  · simpa [h0, bufSnaps] using h4
  · intro hnil
    rw [(h6 hnil : (runSaves start steps).1 = start)]
    exact h0
  · intro s fs f hwf
    rw [save_csv_failure s fs f hwf]
    exact ⟨rfl, bufSnaps_map_record _⟩

/-- C1 witness: after a run ending in a successful save, the buffer file
holds no snapshots, matching the pending-suffix characterization. -/
theorem save_csv_durable_no_loss_witness :
    bufSnaps (runSaves fs0 demoSteps).1.buf = [] :=
  ((save_csv_durable_no_loss demoSteps fs0 rfl).2.2.1).trans (by decide)

/-- C3: Failure-path buffering: when the CSV append raises, `save_csv`
returns `Buffered` and truncate-rewrites the buffer file to exactly the
write-set — previously buffered snapshots (oldest first) then the current
one — one JSON record per line; hence two consecutive failed saves from an
absent buffer leave the buffer holding both snapshots in arrival order. -/
theorem save_csv_failure_path (stats : Snap) (fs : FS) (f : WriteFail) (P : List Snap)
    (h : _load_buffer fs.buf = Except.ok P) :
    ((save_csv stats fs (some f)).2 = SaveOutcome.buffered)
    ∧ ((save_csv stats fs (some f)).1.buf = some (_persist_buffer (P ++ [stats])))
    ∧ (_persist_buffer (P ++ [stats]) = (P ++ [stats]).map BufLine.record)
    ∧ (∀ (s1 s2 : Snap) (f1 f2 : WriteFail) (start : FS), start.buf = none →
        ((save_csv s1 start (some f1)).2 = SaveOutcome.buffered)
        ∧ ((save_csv s2 (save_csv s1 start (some f1)).1 (some f2)).2 = SaveOutcome.buffered)
        ∧ (save_csv s2 (save_csv s1 start (some f1)).1 (some f2)).1.buf =
            some [BufLine.record s1, BufLine.record s2]) := by
  have hone : ∀ g, save_csv stats fs (some g) =
      ({ csv := (_write_csv_rows fs.csv (P ++ [stats]) (some g)).1,
         buf := some (_persist_buffer (P ++ [stats])) }, SaveOutcome.buffered) := by
    intro g
    cases g <;> simp [save_csv, h, _write_csv_rows]
  refine ⟨by rw [hone f], by rw [hone f], rfl, ?_⟩
  intro s1 s2 f1 f2 start hstart
  have hw0 : BufWF start.buf := Or.inl hstart
  have e1 := save_csv_failure s1 start f1 hw0
  have hb1 : (save_csv s1 start (some f1)).1.buf =
      some ((bufSnaps start.buf ++ [s1]).map BufLine.record) := by rw [e1]
  have hw1 : BufWF (save_csv s1 start (some f1)).1.buf := Or.inr ⟨_, hb1⟩
  have e2 := save_csv_failure s2 (save_csv s1 start (some f1)).1 f2 hw1
  refine ⟨by rw [e1], by rw [e2], ?_⟩
  rw [e2]
  rw [hb1, bufSnaps_map_record, hstart]
  simp [bufSnaps]

/-- C3 witness: two consecutive failed saves from an absent buffer leave
the buffer holding both snapshots in arrival order. -/
theorem save_csv_failure_path_witness :
    (save_csv demoSnapD (save_csv demoSnapC fs0 (some WriteFail.noFile)).1
        (some (WriteFail.afterRows 0))).1.buf =
      some [BufLine.record demoSnapC, BufLine.record demoSnapD] :=
  ((save_csv_failure_path demoSnapC fs0 WriteFail.noFile [] rfl).2.2.2
    demoSnapC demoSnapD WriteFail.noFile (WriteFail.afterRows 0) fs0 rfl).2.2

/-- C4: Buffer corruption is fatal: loading the buffer skips
whitespace-only lines (a clean buffer decodes to exactly its record
lines), but if the buffer file contains any non-blank line that is not
valid JSON, `save_csv` propagates the parse failure as a fatal error —
the filesystem is untouched and neither `Delivered` nor `Buffered` is
returned, so corrupted buffer content is never silently dropped. -/
theorem buffer_corruption_fatal :
    (∀ lines : List BufLine, (∀ l ∈ lines, isGarbage l = false) →
      _load_buffer (some lines) = Except.ok (lines.filterMap recOf))
    ∧ (∀ (stats : Snap) (fs : FS) (wf : Option WriteFail) (lines : List BufLine),
        fs.buf = some lines → (∃ l ∈ lines, isGarbage l = true) →
        ∃ e, save_csv stats fs wf = (fs, SaveOutcome.fatal e)) := by
  have hload : ∀ lines : List BufLine, (∀ l ∈ lines, isGarbage l = false) →
      loadLines lines = Except.ok (lines.filterMap recOf) := by
    intro lines
    induction lines with
    | nil => intro _; rfl
    | cons l rest ih =>
        intro hnog
        rcases List.forall_mem_cons.mp hnog with ⟨hl, hrest⟩
        cases l with
        | record s => simp [loadLines, ih hrest, Except.map, List.filterMap_cons, recOf]
        | blank ws => simp [loadLines, ih hrest, List.filterMap_cons, recOf]
        | garbage raw => simp [isGarbage] at hl
  have hgarb : ∀ lines : List BufLine, (∃ l ∈ lines, isGarbage l = true) →
      ∃ e, loadLines lines = Except.error e := by
    intro lines
    induction lines with
    | nil => intro h; simp at h
    | cons l rest ih =>
        intro h
        cases l with
        | record s =>
            have hr : ∃ x ∈ rest, isGarbage x = true := by
              rcases h with ⟨x, hx, hgx⟩
              rcases List.mem_cons.mp hx with rfl | hx
              · simp [isGarbage] at hgx
              · exact ⟨x, hx, hgx⟩
            rcases ih hr with ⟨e, he⟩
            exact ⟨e, by simp [loadLines, he, Except.map]⟩
        | blank ws =>
            have hr : ∃ x ∈ rest, isGarbage x = true := by
              rcases h with ⟨x, hx, hgx⟩
              rcases List.mem_cons.mp hx with rfl | hx
              · simp [isGarbage] at hgx
              · exact ⟨x, hx, hgx⟩
            rcases ih hr with ⟨e, he⟩
            exact ⟨e, by simp [loadLines, he]⟩
        | garbage raw => exact ⟨"JSONDecodeError: " ++ raw, rfl⟩
  refine ⟨fun lines h => hload lines h, ?_⟩
  intro stats fs wf lines hbuf hg
  rcases hgarb lines hg with ⟨e, he⟩
  exact ⟨e, by simp [save_csv, _load_buffer, hbuf, he]⟩

/-- C4 witness: a buffer with a blank line, a record line, and a corrupted
line makes `save_csv` fail fatally without touching the filesystem. -/
theorem buffer_corruption_fatal_witness :
    ∃ e, save_csv demoSnapC
        { csv := none,
          buf := some [BufLine.blank "  ", BufLine.record demoSnapD,
            BufLine.garbage "\x7boops"] } none =
      ({ csv := none,
         buf := some [BufLine.blank "  ", BufLine.record demoSnapD,
           BufLine.garbage "\x7boops"] }, SaveOutcome.fatal e) :=
  buffer_corruption_fatal.2 demoSnapC _ none _ rfl (by decide)

lemma runSaves_all_success (snaps : List Snap) :
    ∀ L : List String,
      (runSaves { csv := some L, buf := none } (snaps.map (fun s => (s, none)))).1.csv =
        some (L ++ snaps.map rowLine) := by
  induction snaps with
  | nil => intro L; simp [runSaves]
  | cons s rest ih =>
      intro L
      have hstep := save_csv_success s { csv := some L, buf := none } (Or.inl rfl)
      simp only [Option.getD_some, Option.isNone_some, Bool.false_eq_true, if_false,
        bufSnaps, Option.getD_none, List.filterMap_nil, List.nil_append, List.map_cons,
        List.map_nil, List.append_nil] at hstep
      simp only [List.map_cons, runSaves, hstep]
      rw [ih (L ++ [rowLine s])]
      simp

/-- C5: CSV header round-trip: saving a non-empty sequence of snapshots to
a fresh CSV path (all writes succeeding) yields exactly one header line —
the fixed ordered field list — followed by one data line per snapshot in
insertion order; a successful save onto an existing CSV appends data rows
with no second header; `top_processes` is not among the CSV fields, so a
row depends only on the snapshot's values at the fixed field list; and a
field missing from a snapshot is rendered as the empty string. -/
theorem csv_header_round_trip (first : Snap) (restSnaps : List Snap) :
    ((runSaves fs0 ((first :: restSnaps).map (fun s => (s, none)))).1.csv =
      some (headerLine :: (first :: restSnaps).map rowLine))
    ∧ (∀ (fs : FS) (s : Snap) (L : List String), BufWF fs.buf → fs.csv = some L →
        (save_csv s fs none).1.csv = some (L ++ (bufSnaps fs.buf ++ [s]).map rowLine))
    ∧ (CSV_FIELDS = ["timestamp", "cpu_percent", "memory_percent", "memory_used",
        "memory_total", "disk_percent", "disk_used", "disk_total", "net_bytes_sent",
        "net_bytes_recv", "uptime_seconds"])
    ∧ headerLine = String.intercalate "," CSV_FIELDS
    ∧ ("top_processes" ∉ CSV_FIELDS)
    ∧ (∀ s t : Snap, (∀ f ∈ CSV_FIELDS, snapGet s f = snapGet t f) → rowLine s = rowLine t)
    ∧ (∀ (s : Snap) (f : String), snapGet s f = none → cell s f = "") := by
  refine ⟨?_, ?_, rfl, by decide, by decide, ?_, ?_⟩
  · have hstep := save_csv_success first fs0 (Or.inl rfl)
    simp only [fs0, Option.getD_none, Option.isNone_none, if_true, bufSnaps,
      List.filterMap_nil, List.nil_append, List.map_cons, List.map_nil] at hstep
    simp only [List.map_cons, runSaves, fs0, hstep]
    rw [show ([headerLine] ++ [rowLine first] : List String) = [headerLine, rowLine first]
      from rfl]
    rw [runSaves_all_success restSnaps [headerLine, rowLine first]]
    simp
  · intro fs s L hwf hcsv
    rw [save_csv_success s fs hwf]
    simp [hcsv]
  · intro s t hag
    unfold rowLine
    congr 1
    apply List.map_congr_left
    intro f hf
    simp [cell, hag f hf]
  · intro s f h
    simp [cell, h]

/-- C5 witness: a successful save onto an existing CSV appends the data
row with no second header. -/
theorem csv_header_round_trip_witness :
    (save_csv demoSnapD { csv := some ["x"], buf := none } none).1.csv =
      some (["x"] ++ (bufSnaps (none : Option (List BufLine)) ++ [demoSnapD]).map rowLine) :=
  (csv_header_round_trip demoSnapC []).2.1 { csv := some ["x"], buf := none } demoSnapD
    ["x"] (Or.inl rfl) rfl

/-- C9: Delivery is at-least-once, not exactly-once: when the CSV append
fails after `k` rows of the write-set were already appended, `save_csv`
still persists the entire write-set — including the already-appended
rows — to the buffer file; consequently the next successful save appends
them again, and each already-appended snapshot occurs at least twice in
the resulting CSV. -/
theorem save_csv_at_least_once (fs : FS) (s s2 : Snap) (k : Nat) (h0 : BufWF fs.buf) :
    ((save_csv s fs (some (WriteFail.afterRows k))).2 = SaveOutcome.buffered)
    ∧ ((save_csv s fs (some (WriteFail.afterRows k))).1.buf =
        some ((bufSnaps fs.buf ++ [s]).map BufLine.record))
    ∧ (∀ t ∈ (bufSnaps fs.buf ++ [s]).take k,
        rowLine t ∈ (save_csv s fs (some (WriteFail.afterRows k))).1.csv.getD [])
    ∧ ((save_csv s2 (save_csv s fs (some (WriteFail.afterRows k))).1 none).2 =
        SaveOutcome.delivered)
    ∧ (∀ t ∈ (bufSnaps fs.buf ++ [s]).take k,
        2 ≤ ((save_csv s2 (save_csv s fs (some (WriteFail.afterRows k))).1 none).1.csv.getD
          []).count (rowLine t)) := by
  have e1 := save_csv_failure s fs (WriteFail.afterRows k) h0
  have hb1 : (save_csv s fs (some (WriteFail.afterRows k))).1.buf =
      some ((bufSnaps fs.buf ++ [s]).map BufLine.record) := by rw [e1]
  have hc1 : (save_csv s fs (some (WriteFail.afterRows k))).1.csv =
      some (fs.csv.getD [] ++ (if fs.csv.isNone then [headerLine] else []) ++
        ((bufSnaps fs.buf ++ [s]).take k).map rowLine) := by rw [e1]; rfl
  have hwf1 : BufWF (save_csv s fs (some (WriteFail.afterRows k))).1.buf := Or.inr ⟨_, hb1⟩
  have e2 := save_csv_success s2 (save_csv s fs (some (WriteFail.afterRows k))).1 hwf1
  refine ⟨by rw [e1], hb1, ?_, by rw [e2], ?_⟩
  · intro t ht
    rw [hc1]
    simp only [Option.getD_some, List.mem_append]
    exact Or.inr (List.mem_map_of_mem _ ht)
  · intro t ht
    have m1 : 0 < (((bufSnaps fs.buf ++ [s]).take k).map rowLine).count (rowLine t) :=
      List.count_pos_iff.mpr (List.mem_map_of_mem _ ht)
    have m2 : 0 < ((bufSnaps fs.buf ++ [s]).map rowLine).count (rowLine t) :=
      List.count_pos_iff.mpr (List.mem_map_of_mem _ (List.take_subset k _ ht))
    simp only [List.map_append, List.count_append] at m2
    rw [e2]
    simp only [Option.getD_some]
    rw [hc1, hb1, bufSnaps_map_record]
    simp only [Option.getD_some, Option.isNone_some, Bool.false_eq_true, if_false,
      List.append_nil, List.map_append, List.count_append]
    omega

/-- C9 witness: with an empty backlog, a failure after the single row of
the write-set was appended, followed by a successful save. -/
theorem save_csv_at_least_once_witness :
    2 ≤ ((save_csv demoSnapD
        (save_csv demoSnapC fs0 (some (WriteFail.afterRows 1))).1 none).1.csv.getD []).count
      (rowLine demoSnapC) := by
  have h := (save_csv_at_least_once fs0 demoSnapC demoSnapD 1 (Or.inl rfl)).2.2.2.2
  exact h demoSnapC (by decide)

/-- C7: Orchestrator alert fan-out is conditional on alerts: with an empty
alert list neither the alert log nor the email notifier is invoked; with a
non-empty list the alerts are appended to the alert log first and only
then is the email attempted, while an alert-log I/O failure is fatal,
aborting before any email attempt and before the report; in every
non-fatal outcome (the email returning sent or skipped) the HTML report is
rendered and the snapshot is returned, regardless of the CSV save outcome
and of the email result; and an uncaught email transport error aborts
after the log append, before the report. -/
theorem run_once_alert_fanout (stats : Snap) (w : World) (wf : Option WriteFail)
    (now : String) (env : Env) (transport : TransportOutcome) (alerts : List String)
    (hb : BufWF w.fs.buf) (ha : check_thresholds stats = some alerts) :
    (alerts = [] → ∀ logOk,
      run_once stats w wf logOk now env transport =
        ({ fs := (save_csv stats w.fs wf).1, alertLog := w.alertLog,
           report := some (stats, alerts) },
         [Event.savedCsv (decide ((save_csv stats w.fs wf).2 = SaveOutcome.delivered)),
          Event.renderedReport],
         Except.ok stats))
    ∧ (alerts ≠ [] → ∀ sr : SendResult,
      send_email alerts stats none none env transport = Except.ok sr →
      run_once stats w wf true now env transport =
        ({ fs := (save_csv stats w.fs wf).1,
           alertLog := log_alerts alerts now w.alertLog,
           report := some (stats, alerts) },
         [Event.savedCsv (decide ((save_csv stats w.fs wf).2 = SaveOutcome.delivered)),
          Event.loggedAlerts alerts,
          Event.emailAttempted sr.result,
          Event.renderedReport],
         Except.ok stats))
    ∧ (alerts ≠ [] →
      run_once stats w wf false now env transport =
        ({ w with fs := (save_csv stats w.fs wf).1 },
         [Event.savedCsv (decide ((save_csv stats w.fs wf).2 = SaveOutcome.delivered))],
         Except.error "OSError: log_alerts"))
    ∧ (alerts ≠ [] → ∀ m : String,
      send_email alerts stats none none env transport = Except.error m →
      run_once stats w wf true now env transport =
        ({ fs := (save_csv stats w.fs wf).1,
           alertLog := log_alerts alerts now w.alertLog, report := w.report },
         [Event.savedCsv (decide ((save_csv stats w.fs wf).2 = SaveOutcome.delivered)),
          Event.loggedAlerts alerts],
         Except.error m)) := by
  have hsave : ∃ fs1 out, save_csv stats w.fs wf = (fs1, out) ∧
      (out = SaveOutcome.delivered ∨ out = SaveOutcome.buffered) := by
    rcases wf with _ | f
    · exact ⟨_, _, save_csv_success stats w.fs hb, Or.inl rfl⟩
    · exact ⟨_, _, save_csv_failure stats w.fs f hb, Or.inr rfl⟩
  rcases hsave with ⟨fs1, out, he, hout⟩
  refine ⟨?_, ?_, ?_, ?_⟩
  · rintro rfl logOk
    rcases hout with rfl | rfl <;> simp [run_once, he, ha]
  · intro hne sr hsr
    rcases alerts with _ | ⟨a, as⟩
    · exact absurd rfl hne
    · rcases hout with rfl | rfl <;> simp [run_once, he, ha, hsr]
  · intro hne
    rcases alerts with _ | ⟨a, as⟩
    · exact absurd rfl hne
    · rcases hout with rfl | rfl <;> simp [run_once, he, ha]
  · intro hne m hm
    rcases alerts with _ | ⟨a, as⟩
    · exact absurd rfl hne
    · rcases hout with rfl | rfl <;> simp [run_once, he, ha, hm]

/-- C7 witness: a breaching snapshot with the alert log available — alerts
are logged, then the email attempted (here skipped for lack of
credentials), the report rendered and the snapshot returned. -/
theorem run_once_alert_fanout_witness :
    run_once demoSnapA { fs := fs0, alertLog := [], report := none } none true "T"
        { SENDER_EMAIL := none, APP_PASSWORD := none, RECIPIENT_EMAIL := none }
        TransportOutcome.success =
      ({ fs := (save_csv demoSnapA fs0 none).1,
         alertLog := log_alerts
           ["cpu_percent at 95.0% exceeds 90.0%", "disk_percent at 91.0% exceeds 90.0%"] "T" [],
         report := some (demoSnapA,
           ["cpu_percent at 95.0% exceeds 90.0%", "disk_percent at 91.0% exceeds 90.0%"]) },
       [Event.savedCsv (decide ((save_csv demoSnapA fs0 none).2 = SaveOutcome.delivered)),
        Event.loggedAlerts
          ["cpu_percent at 95.0% exceeds 90.0%", "disk_percent at 91.0% exceeds 90.0%"],
        Event.emailAttempted false,
        Event.renderedReport],
       Except.ok demoSnapA) :=
  (run_once_alert_fanout demoSnapA { fs := fs0, alertLog := [], report := none } none "T"
      { SENDER_EMAIL := none, APP_PASSWORD := none, RECIPIENT_EMAIL := none }
      TransportOutcome.success _ (Or.inl rfl) check_demoA).2.1 (by simp)
    { result := false, contacted := false, delivered_message := none } rfl

end SystemHealth
